import Mathlib

/-!
Verification of the CaptainLedger budget & exchange-rate core.

This file gives a shallow embedding, in Lean 4, of the budget-tracking and
exchange-rate-resolution logic of the CaptainLedger backend
(`backend/api/budget.py` and `backend/services/exchange_rate_service.py`),
together with theorems settling the specification claims about it.

Conventions of the embedding:
* Python `datetime.date` values become the `Date` structure below, with the
  proleptic-Gregorian calendar rules (`isLeap`, `daysInMonth`, ordinals)
  exactly as in CPython's `datetime` module.
* Python `date.replace(...)` validates its result and raises `ValueError`
  on an invalid day-of-month; this is modelled by `mkDate?` returning
  `Option Date`.
* Monetary amounts and rates are modelled as `ℚ` (the claims under test do
  not involve float-rounding behaviour).
* Database tables become Lean lists of rows; queries become list
  operations; a fallible query is an `Except` value.
-/

/-- A calendar date, mirroring Python `datetime.date` (year, month, day). -/
structure Date where
  year : Nat
  month : Nat
  day : Nat
deriving DecidableEq, Repr

/-- Gregorian leap-year rule, as in CPython `calendar.isleap`. -/
def isLeap (y : Nat) : Bool :=
  y % 4 = 0 && (y % 100 ≠ 0 || y % 400 = 0)

/-- Number of days in a month, as in CPython `calendar.monthrange`. -/
def daysInMonth (y m : Nat) : Nat :=
  if m = 1 then 31
  else if m = 2 then (if isLeap y then 29 else 28)
  else if m = 3 then 31
  else if m = 4 then 30
  else if m = 5 then 31
  else if m = 6 then 30
  else if m = 7 then 31
  else if m = 8 then 31
  else if m = 9 then 30
  else if m = 10 then 31
  else if m = 11 then 30
  else 31

/-- A `Date` is valid when its month and day are in range (Python's `date`
constructor enforces exactly this). -/
def ValidDate (d : Date) : Prop :=
  1 ≤ d.year ∧ 1 ≤ d.month ∧ d.month ≤ 12 ∧ 1 ≤ d.day ∧ d.day ≤ daysInMonth d.year d.month

instance (d : Date) : Decidable (ValidDate d) := by
  unfold ValidDate; infer_instance

/-- Python's `date(...)` constructor / `date.replace(...)`: yields the date
when valid, `none` when Python would raise `ValueError`. -/
def mkDate? (y m d : Nat) : Option Date :=
  if 1 ≤ y ∧ 1 ≤ m ∧ m ≤ 12 ∧ 1 ≤ d ∧ d ≤ daysInMonth y m then some ⟨y, m, d⟩ else none

/-- The day after `d` (extensional model of `d + timedelta(days=1)`). -/
def nextDay (d : Date) : Date :=
  if d.day < daysInMonth d.year d.month then ⟨d.year, d.month, d.day + 1⟩
  else if d.month < 12 then ⟨d.year, d.month + 1, 1⟩
  else ⟨d.year + 1, 1, 1⟩

/-- The day before `d` (extensional model of `d - timedelta(days=1)`). -/
def prevDay (d : Date) : Date :=
  if 1 < d.day then ⟨d.year, d.month, d.day - 1⟩
  else if 1 < d.month then ⟨d.year, d.month - 1, daysInMonth d.year (d.month - 1)⟩
  else ⟨d.year - 1, 12, 31⟩

/-- `d + timedelta(days=n)`. -/
def addDays (d : Date) : Nat → Date
  | 0 => d
  | n + 1 => nextDay (addDays d n)

/-- `d - timedelta(days=n)`. -/
def subDays (d : Date) : Nat → Date
  | 0 => d
  | n + 1 => prevDay (subDays d n)

/-- Days in all months strictly before month `m` of year `y`
(CPython `datetime._days_before_month`). -/
def daysBeforeMonth (y m : Nat) : Nat :=
  (List.range (m - 1)).foldl (fun acc i => acc + daysInMonth y (i + 1)) 0

/-- Days in all years strictly before year `y`
(CPython `datetime._days_before_year`). -/
def daysBeforeYear (y : Nat) : Nat :=
  365 * (y - 1) + (y - 1) / 4 - (y - 1) / 100 + (y - 1) / 400

/-- Proleptic-Gregorian ordinal of a date, with `0001-01-01` ↦ 1, as in
CPython `date.toordinal()`. -/
def toOrdinal (d : Date) : Nat :=
  daysBeforeYear d.year + daysBeforeMonth d.year d.month + d.day

/-- Python `date.weekday()`: Monday = 0, ..., Sunday = 6;
`0001-01-01` was a Monday. -/
def weekday (d : Date) : Nat :=
  (toOrdinal d + 6) % 7

/-- Total order on dates, as Python compares `date` objects. -/
def dateLe (a b : Date) : Bool :=
  a.year < b.year ||
    (a.year = b.year && (a.month < b.month ||
      (a.month = b.month && a.day ≤ b.day)))

/-- `calculate_period_dates(period, start_date)` from `backend/api/budget.py`:
the inclusive [start, end] window of the period containing `start_date`.
(The Python prelude normalising `None`/string inputs to a `date` is input
plumbing outside this model; the argument here is the already-normalised
date.) An unknown period kind falls into the final `else`, which repeats
the monthly computation. -/
def calculate_period_dates (period : String) (start_date : Date) : Date × Date :=
  if period = "daily" then
    (start_date, start_date)
  else if period = "weekly" then
    let days_since_monday := weekday start_date
    let start := subDays start_date days_since_monday
    (start, addDays start 6)
  else if period = "monthly" then
    let start : Date := ⟨start_date.year, start_date.month, 1⟩
    if start.month = 12 then
      (start, prevDay ⟨start.year + 1, 1, 1⟩)
    else
      (start, prevDay ⟨start.year, start.month + 1, 1⟩)
  else if period = "yearly" then
    (⟨start_date.year, 1, 1⟩, ⟨start_date.year, 12, 31⟩)
  else
    let start : Date := ⟨start_date.year, start_date.month, 1⟩
    if start.month = 12 then
      (start, prevDay ⟨start.year + 1, 1, 1⟩)
    else
      (start, prevDay ⟨start.year, start.month + 1, 1⟩)

/-- `get_budget_status(spent_amount, budget_amount, alert_threshold)` from
`backend/api/budget.py`: classify a budget by percentage spent. -/
def get_budget_status (spent_amount budget_amount alert_threshold : ℚ) : String :=
  if budget_amount ≤ 0 then "invalid"
  else
    let percentage := spent_amount / budget_amount * 100
    if percentage ≥ 100 then "exceeded"
    else if percentage ≥ alert_threshold then "warning"
    else if percentage ≥ 50 then "on_track"
    else "healthy"

/-- A transaction row (the fields `calculate_spent_amount` reads). -/
structure Transaction where
  id : Nat
  user_id : Nat
  category : String
  amount : ℚ
  date : Date
deriving DecidableEq, Repr

/-- The filter of the `Transaction.query.filter(...)` call inside
`calculate_spent_amount`: this user, this category, negative amount,
date within the inclusive window. -/
def spentFilter (txs : List Transaction) (user_id : Nat) (category : String)
    (start_date end_date : Date) : List Transaction :=
  txs.filter fun t =>
    t.user_id = user_id && t.category = category && decide (t.amount < 0) &&
      dateLe start_date t.date && dateLe t.date end_date

/-- `calculate_spent_amount(user_id, category, start_date, end_date)` from
`backend/api/budget.py`. The transaction query may fail (`Except.error`);
the `except` clause then returns 0. On success the absolute values of the
matching (expense) rows are summed. -/
def calculate_spent_amount (query : Except String (List Transaction))
    (user_id : Nat) (category : String) (start_date end_date : Date) : ℚ :=
  match query with
  | Except.error _ => 0
  | Except.ok txs =>
      ((spentFilter txs user_id category start_date end_date).map
        (fun t => |t.amount|)).sum

/-- A budget row (the fields the budget endpoints read and write). -/
structure Budget where
  id : Nat
  user_id : Nat
  name : String
  category : String
  amount : ℚ
  currency : String
  period : String
  start_date : Date
  end_date : Option Date
  alert_threshold : ℚ
  is_active : Bool
  auto_rollover : Bool
  notes : String
deriving DecidableEq, Repr

/-- Outcome of the per-budget new-start-date computation inside
`rollover_budgets`: the `else: continue` branch (`skip`), a `ValueError`
raised by `date.replace` (`fail`), or the next period's start. -/
inductive RolloverStep where
  | skip
  | fail
  | next (d : Date)
deriving DecidableEq, Repr

/-- Whether a rollover step produced a new start date. -/
def RolloverStep.isNext : RolloverStep → Bool
  | .next _ => true
  | _ => false

/-- The new-start-date computation of `rollover_budgets`
(`backend/api/budget.py`, the body of its `for budget in budgets` loop up to
`new_start`). `date.replace` keeps the unmentioned fields, so the monthly
and yearly branches keep the day-of-month and can raise `ValueError`
(modelled as `.fail`) when that day does not exist in the target month. -/
def rolloverNewStart (period : String) (current_start : Date) : RolloverStep :=
  if period = "daily" then
    .next (addDays current_start 1)
  else if period = "weekly" then
    .next (addDays current_start 7)
  else if period = "monthly" then
    if current_start.month = 12 then
      match mkDate? (current_start.year + 1) 1 current_start.day with
      | some d => .next d
      | none => .fail
    else
      match mkDate? current_start.year (current_start.month + 1) current_start.day with
      | some d => .next d
      | none => .fail
  else if period = "yearly" then
    match mkDate? (current_start.year + 1) current_start.month current_start.day with
    | some d => .next d
    | none => .fail
  else
    .skip

/-- The successor budget created by `rollover_budgets`: configuration copied
from the old budget, the new start date, `end_date` unset, and the model
defaults `is_active=True`, id assigned by the database (0 here stands for a
fresh id). -/
def mkRolloverBudget (user_id : Nat) (b : Budget) (new_start : Date) : Budget :=
  { id := 0
    user_id := user_id
    name := b.name
    category := b.category
    amount := b.amount
    currency := b.currency
    period := b.period
    start_date := new_start
    end_date := none
    alert_threshold := b.alert_threshold
    is_active := true
    auto_rollover := b.auto_rollover
    notes := b.notes }

/-- The database session state produced by a successful batch rollover:
the (possibly deactivated) pre-existing budgets, the newly created
successor budgets, and the reported success count. -/
structure RolloverOutcome where
  olds : List Budget
  news : List Budget
  count : Nat
deriving DecidableEq, Repr

/-- The `for budget in budgets` loop of `rollover_budgets`. An exception
anywhere in the loop unwinds to the outer handler, which rolls the session
back and returns an error response: modelled by `Except.error`, discarding
all per-item changes. -/
def rolloverLoop (user_id : Nat) (period : String) :
    List Budget → Except String RolloverOutcome
  | [] => Except.ok ⟨[], [], 0⟩
  | b :: rest =>
    match rolloverNewStart period b.start_date with
    | .fail => Except.error "ValueError: day is out of range for month"
    | .skip =>
      match rolloverLoop user_id period rest with
      | Except.error e => Except.error e
      | Except.ok o => Except.ok ⟨b :: o.olds, o.news, o.count⟩
    | .next ns =>
      match rolloverLoop user_id period rest with
      | Except.error e => Except.error e
      | Except.ok o =>
        Except.ok ⟨{ b with is_active := false } :: o.olds,
          mkRolloverBudget user_id b ns :: o.news, o.count + 1⟩

/-- `rollover_budgets` from `backend/api/budget.py`, applied to the selected
list of budgets: on success the session is committed and the success count
reported; on an exception the whole session is rolled back (`Except.error`,
no partial state survives). -/
def rollover_budgets (user_id : Nat) (period : String) (budgets : List Budget) :
    Except String RolloverOutcome :=
  rolloverLoop user_id period budgets

/-- The JSON body of a `PUT /<budget_id>` request: `some` for each field
present in the request. `end_date` may be present-and-null
(`some none`). -/
structure BudgetUpdate where
  name : Option String := none
  category : Option String := none
  amount : Option ℚ := none
  period : Option String := none
  start_date : Option Date := none
  end_date : Option (Option Date) := none
  currency : Option String := none
  alert_threshold : Option ℚ := none
  auto_rollover : Option Bool := none
  is_active : Option Bool := none
  notes : Option String := none

/-- The field-update semantics of `update_budget` from
`backend/api/budget.py`: every field present in the request body overwrites
the stored field, unconditionally. -/
def update_budget (b : Budget) (u : BudgetUpdate) : Budget :=
  { b with
    name := u.name.getD b.name
    category := u.category.getD b.category
    amount := u.amount.getD b.amount
    period := u.period.getD b.period
    start_date := u.start_date.getD b.start_date
    end_date := u.end_date.getD b.end_date
    currency := u.currency.getD b.currency
    alert_threshold := u.alert_threshold.getD b.alert_threshold
    auto_rollover := u.auto_rollover.getD b.auto_rollover
    is_active := u.is_active.getD b.is_active
    notes := u.notes.getD b.notes }

/-- A row of the `exchange_rates` table (the fields the service touches).
`created_at` is a UTC timestamp in seconds; `id` stands for the row's
database identity. -/
structure ExchangeRate where
  id : Nat
  from_currency : String
  to_currency : String
  rate : ℚ
  source : String
  date : Date
  created_at : ℤ
deriving DecidableEq, Repr

/-- Outcome of one HTTP request made through `requests.get(...)` plus JSON
parsing: a timeout, a transport/non-2xx error (`raise_for_status`),
malformed JSON, or a parsed payload. -/
inductive ApiOutcome (α : Type) where
  | timeout
  | httpError
  | badJson
  | ok (payload : α)
deriving DecidableEq, Repr

/-- The JSON payload of the primary keyed rate API:
`{result: ..., conversion_rate: ...}` (the rate key may be absent). -/
structure PrimaryPayload where
  result : String
  conversion_rate : Option ℚ
deriving DecidableEq, Repr

/-- The JSON payload of the key-less fallback rate API for a base currency:
`{rates: {CODE: rate, ...}}`. -/
structure FallbackPayload where
  rates : List (String × ℚ)
deriving DecidableEq, Repr

/-- The environment of one `ExchangeRateService` call: the current UTC
time, the configured API key (if any), and the behaviour of the two
external providers (per requested pair / base currency). -/
structure RateEnv where
  now : ℤ
  today : Date
  api_key : Option String
  primary : String → String → ApiOutcome PrimaryPayload
  fallback : String → ApiOutcome FallbackPayload

/-- All cache rows stored for the exact (from, to) pair, in table order. -/
def pairRows (cache : List ExchangeRate) (f t : String) : List ExchangeRate :=
  cache.filter fun r => r.from_currency = f && r.to_currency = t

/-- `order_by(created_at.desc()).first()`: the stored row with the greatest
`created_at` (first such row on ties). -/
def mostRecent : List ExchangeRate → Option ExchangeRate
  | [] => none
  | r :: rs =>
    match mostRecent rs with
    | none => some r
    | some m => if m.created_at > r.created_at then some m else some r

/-- Insert a row into a list sorted by ascending `created_at`. -/
def insertByCreated (r : ExchangeRate) : List ExchangeRate → List ExchangeRate
  | [] => [r]
  | x :: xs =>
    if r.created_at ≤ x.created_at then r :: x :: xs
    else x :: insertByCreated r xs

/-- `order_by(created_at.asc())`: sort rows by ascending `created_at`. -/
def sortByCreated : List ExchangeRate → List ExchangeRate
  | [] => []
  | x :: xs => insertByCreated x (sortByCreated xs)

/-- A fresh database id for an inserted row. -/
def freshId (cache : List ExchangeRate) : Nat :=
  (cache.map (fun r => r.id)).foldl max 0 + 1

/-- The new `ExchangeRate(...)` row built at the end of `_cache_rate`. -/
def newCacheRow (env : RateEnv) (cache : List ExchangeRate)
    (from_currency to_currency : String) (rate : ℚ) (source : String) :
    ExchangeRate :=
  { id := freshId cache
    from_currency := from_currency
    to_currency := to_currency
    rate := rate
    source := source
    date := env.today
    created_at := env.now }

/-- `ExchangeRateService._cache_rate`: when the pair already has 20 or more
stored rows, delete the oldest `count - 19` of them, then insert the new
row (keeping 19 old + 1 new). -/
def cache_rate (env : RateEnv) (cache : List ExchangeRate)
    (from_currency to_currency : String) (rate : ℚ) (source : String) :
    List ExchangeRate :=
  let existing := pairRows cache from_currency to_currency
  let existing_count := existing.length
  let pruned :=
    if existing_count ≥ 20 then
      let oldest_rates := (sortByCreated existing).take (existing_count - 19)
      cache.filter fun r => !(oldest_rates.any fun o => o.id = r.id)
    else cache
  pruned ++ [newCacheRow env cache from_currency to_currency rate source]

/-- First cache tier: the `.first()` row for the pair with `created_at`
within the last 6 hours (no ordering clause: table order). -/
def freshLookup (env : RateEnv) (cache : List ExchangeRate) (f t : String) :
    Option ExchangeRate :=
  (cache.filter fun r =>
    r.from_currency = f && r.to_currency = t &&
      decide (r.created_at > env.now - 6 * 3600)).head?

/-- Second cache tier: the most recent row for the pair within 48 hours. -/
def staleLookup (env : RateEnv) (cache : List ExchangeRate) (f t : String) :
    Option ExchangeRate :=
  mostRecent (cache.filter fun r =>
    r.from_currency = f && r.to_currency = t &&
      decide (r.created_at > env.now - 48 * 3600))

/-- Third cache tier: the most recent row for the reverse pair within
48 hours. -/
def reverseLookup (env : RateEnv) (cache : List ExchangeRate) (f t : String) :
    Option ExchangeRate :=
  mostRecent (cache.filter fun r =>
    r.from_currency = t && r.to_currency = f &&
      decide (r.created_at > env.now - 48 * 3600))

/-- Fourth cache tier, first leg: most recent (from → USD) row within
48 hours. -/
def bridgeFromLookup (env : RateEnv) (cache : List ExchangeRate) (f : String) :
    Option ExchangeRate :=
  mostRecent (cache.filter fun r =>
    r.from_currency = f && r.to_currency = "USD" &&
      decide (r.created_at > env.now - 48 * 3600))

/-- Fourth cache tier, second leg: most recent (USD → to) row within
48 hours. -/
def bridgeToLookup (env : RateEnv) (cache : List ExchangeRate) (t : String) :
    Option ExchangeRate :=
  mostRecent (cache.filter fun r =>
    r.from_currency = "USD" && r.to_currency = t &&
      decide (r.created_at > env.now - 48 * 3600))

/-- The USD-bridge tier of `_get_cached_rate` (reached when the first
three tiers found nothing usable). -/
def bridgeStep (env : RateEnv) (cache : List ExchangeRate) (f t : String) :
    Option ℚ × List ExchangeRate :=
  if f ≠ "USD" ∧ t ≠ "USD" then
    match bridgeFromLookup env cache f, bridgeToLookup env cache t with
    | some a, some b =>
      let bridge_rate := a.rate * b.rate
      (some bridge_rate, cache_rate env cache f t bridge_rate "calculated_bridge")
    | _, _ => (none, cache)
  else (none, cache)

/-- `ExchangeRateService._get_cached_rate`: the four cache tiers in order
(fresh, 48-hour, reverse with reciprocal, USD bridge), returning the found
rate and the possibly extended cache (the reverse and bridge tiers write
their computed rate back through `_cache_rate`). -/
def get_cached_rate (env : RateEnv) (cache : List ExchangeRate) (f t : String) :
    Option ℚ × List ExchangeRate :=
  match freshLookup env cache f t with
  | some r => (some r.rate, cache)
  | none =>
    match staleLookup env cache f t with
    | some r => (some r.rate, cache)
    | none =>
      match reverseLookup env cache f t with
      | some r =>
        if r.rate ≠ 0 then
          let reverse_rate := 1 / r.rate
          (some reverse_rate, cache_rate env cache f t reverse_rate "calculated")
        else
          bridgeStep env cache f t
      | none => bridgeStep env cache f t

/-- `ExchangeRateService._fetch_from_api`: the primary keyed provider.
Missing key, timeout, transport/non-2xx error, malformed JSON or a
non-success result all yield `none`; a success payload yields
`float(data.get('conversion_rate', 1.0))`. -/
def fetch_from_api (env : RateEnv) (f t : String) : Option ℚ :=
  match env.api_key with
  | none => none
  | some _ =>
    match env.primary f t with
    | .timeout => none
    | .httpError => none
    | .badJson => none
    | .ok payload =>
      if payload.result = "success" then some (payload.conversion_rate.getD 1)
      else none

/-- `ExchangeRateService._get_historical_rate`: the most recent row ever
stored for the pair, regardless of age; 1.0 when none exists. -/
def get_historical_rate (cache : List ExchangeRate) (f t : String) : ℚ :=
  match mostRecent (pairRows cache f t) with
  | some r => r.rate
  | none => 1

/-- `ExchangeRateService._fetch_fallback`: the key-less provider for base
currency `f`; when it fails, or its payload lacks `t`, fall through to the
historical last resort. It returns the rate without writing any cache
row. -/
def fetch_fallback (env : RateEnv) (cache : List ExchangeRate) (f t : String) : ℚ :=
  match env.fallback f with
  | .ok payload =>
    match (payload.rates.lookup t) with
    | some rate => rate
    | none => get_historical_rate cache f t
  | _ => get_historical_rate cache f t

/-- Python truthiness of an `Optional[float]`: `None` and `0.0` are falsy. -/
def truthyRate (x : Option ℚ) : Bool :=
  match x with
  | none => false
  | some v => v ≠ 0

/-- `ExchangeRateService.get_exchange_rate`: identity short-circuit, then
the cache tiers, then the primary API (caching its result as `api`), then
the fallback chain. Returns the resolved rate together with the resulting
cache table. -/
def get_exchange_rate (env : RateEnv) (cache : List ExchangeRate) (f t : String) :
    ℚ × List ExchangeRate :=
  if f = t then (1, cache)
  else
    let (cached_rate, cache1) := get_cached_rate env cache f t
    if truthyRate cached_rate then (cached_rate.getD 0, cache1)
    else
      let rate := fetch_from_api env f t
      if truthyRate rate then
        let v := rate.getD 0
        (v, cache_rate env cache1 f t v "api")
      else
        (fetch_fallback env cache1 f t, cache1)

/-- Whether an HTTP outcome is one of the provider-failure modes the
service recovers from (timeout, transport/non-2xx error, malformed
JSON). -/
def ApiOutcome.failed {α : Type} : ApiOutcome α → Bool
  | .ok _ => false
  | _ => true

/-- The committed session state of a fully successful batch rollover:
every budget whose period computation produced a next start date is
deactivated and paired with a successor; budgets hitting the
`else: continue` branch are untouched; the count is the number of
successors. -/
def rolloverOutcomeOf (user_id : Nat) (period : String) (budgets : List Budget) :
    RolloverOutcome :=
  { olds := budgets.map fun b =>
      if (rolloverNewStart period b.start_date).isNext then
        { b with is_active := false }
      else b
    news := budgets.filterMap fun b =>
      match rolloverNewStart period b.start_date with
      | .next ns => some (mkRolloverBudget user_id b ns)
      | _ => none
    count := (budgets.filter fun b => (rolloverNewStart period b.start_date).isNext).length }

/-- Concrete environment: no API key configured, primary provider timing
out, fallback provider returning a GBP rate of 2 for any base currency. -/
def envNoKey : RateEnv :=
  { now := 0
    today := ⟨2024, 1, 1⟩
    api_key := none
    primary := fun _ _ => ApiOutcome.timeout
    fallback := fun _ => ApiOutcome.ok ⟨[("GBP", 2)]⟩ }

/-- Concrete environment in which both external providers fail. -/
def envAllFail : RateEnv :=
  { now := 0
    today := ⟨2024, 1, 1⟩
    api_key := none
    primary := fun _ _ => ApiOutcome.timeout
    fallback := fun _ => ApiOutcome.timeout }

/-- A monthly budget starting mid-month (its rollover succeeds). -/
def budgetJan15 : Budget :=
  { id := 1
    user_id := 7
    name := "Groceries"
    category := "Food"
    amount := 300
    currency := "USD"
    period := "monthly"
    start_date := ⟨2024, 1, 15⟩
    end_date := none
    alert_threshold := 80
    is_active := true
    auto_rollover := true
    notes := "" }

/-- A monthly budget starting on January 31 (its rollover raises
`ValueError`, since February has no day 31). -/
def budgetJan31 : Budget :=
  { budgetJan15 with id := 2, start_date := ⟨2024, 1, 31⟩ }

/-- A deactivated budget. -/
def inactiveBudget : Budget :=
  { budgetJan15 with id := 3, is_active := false }

/-- A cached reverse-direction (GBP → EUR) rate row, recent enough for the
48-hour window of `envNoKey`. -/
def revRowGBPEUR : ExchangeRate :=
  { id := 1
    from_currency := "GBP"
    to_currency := "EUR"
    rate := 4
    source := "api"
    date := ⟨2024, 1, 1⟩
    created_at := -1000 }

/-- A cache holding exactly 20 rows for the (EUR, GBP) pair, in ascending
`created_at` order. -/
def cache20 : List ExchangeRate :=
  (List.range 20).map fun i =>
    { id := i + 1
      from_currency := "EUR"
      to_currency := "GBP"
      rate := 1
      source := "api"
      date := ⟨2024, 1, 1⟩
      created_at := (i : ℤ) }

/-- C6: the status evaluator classifies by the top-down first-match ladder
(invalid on non-positive budget, then exceeded / warning / on_track /
healthy by percentage), and in particular maps (0,0,80) to invalid,
(50,100,80) to on_track, (85,100,80) to warning and (100,100,80) to
exceeded. -/
theorem budget_status_ladder :
    (∀ spent budgeted threshold : ℚ,
      (budgeted ≤ 0 → get_budget_status spent budgeted threshold = "invalid") ∧
      (0 < budgeted → 100 ≤ spent / budgeted * 100 →
        get_budget_status spent budgeted threshold = "exceeded") ∧
      (0 < budgeted → spent / budgeted * 100 < 100 →
        threshold ≤ spent / budgeted * 100 →
        get_budget_status spent budgeted threshold = "warning") ∧
      (0 < budgeted → spent / budgeted * 100 < 100 →
        spent / budgeted * 100 < threshold → 50 ≤ spent / budgeted * 100 →
        get_budget_status spent budgeted threshold = "on_track") ∧
      (0 < budgeted → spent / budgeted * 100 < 100 →
        spent / budgeted * 100 < threshold → spent / budgeted * 100 < 50 →
        get_budget_status spent budgeted threshold = "healthy")) ∧
    get_budget_status 0 0 80 = "invalid" ∧
    get_budget_status 50 100 80 = "on_track" ∧
    get_budget_status 85 100 80 = "warning" ∧
    get_budget_status 100 100 80 = "exceeded" := by
  refine ⟨fun spent budgeted threshold => ⟨?_, ?_, ?_, ?_, ?_⟩, ?_, ?_, ?_, ?_⟩ <;>
    intros <;> simp only [get_budget_status] <;> split_ifs <;>
    first
      | rfl
      | linarith

/-- Witness for C6: the ladder theorem applied at concrete inputs. -/
theorem budget_status_ladder_witness :
    get_budget_status 85 100 80 = "warning" ∧
    get_budget_status 30 100 80 = "healthy" := by
  constructor
  · exact (budget_status_ladder.1 85 100 80).2.2.1
      (by norm_num) (by norm_num) (by norm_num)
  · exact (budget_status_ladder.1 30 100 80).2.2.2.2
      (by norm_num) (by norm_num) (by norm_num) (by norm_num)

/-- C7: for every valid anchor date, the monthly period window is the
first through the last day of the anchor's month; the end is computed as
one day before the first of the following month, with December rolling to
January of the next year, and a leap-year February ends on day 29
(`daysInMonth y 2 = 29` for leap `y`). -/
theorem monthly_period_window (d : Date) (h : ValidDate d) :
    calculate_period_dates "monthly" d =
      (⟨d.year, d.month, 1⟩, ⟨d.year, d.month, daysInMonth d.year d.month⟩) := by
  obtain ⟨hy, hm1, hm2, hd1, hd2⟩ := h
  have step : calculate_period_dates "monthly" d =
      (if d.month = 12 then
        ((⟨d.year, d.month, 1⟩ : Date), prevDay ⟨d.year + 1, 1, 1⟩)
      else
        ((⟨d.year, d.month, 1⟩ : Date), prevDay ⟨d.year, d.month + 1, 1⟩)) := rfl
  rw [step]
  by_cases h12 : d.month = 12
  · rw [if_pos h12, h12]
    rfl
  · rw [if_neg h12]
    have hp : prevDay ⟨d.year, d.month + 1, 1⟩ =
        ⟨d.year, d.month, daysInMonth d.year d.month⟩ := by
      simp [prevDay, show 1 < d.month + 1 by omega]
    rw [hp]

/-- Witness for C7: the monthly window theorem at 2024-12-15 (December
rolling into January of 2025 for the end-of-month computation) and at
2024-02-10 (leap-year February ending on Feb 29). -/
theorem monthly_period_window_witness :
    calculate_period_dates "monthly" ⟨2024, 12, 15⟩ =
      (⟨2024, 12, 1⟩, ⟨2024, 12, 31⟩) ∧
    calculate_period_dates "monthly" ⟨2024, 2, 10⟩ =
      (⟨2024, 2, 1⟩, ⟨2024, 2, 29⟩) :=
  ⟨monthly_period_window ⟨2024, 12, 15⟩ (by decide),
   monthly_period_window ⟨2024, 2, 10⟩ (by decide)⟩

/-- C9: the spent aggregator sums the absolute values of exactly the
matching negative-amount transactions, its result is non-negative, and
over a set of only positive (income) rows it returns 0. -/
theorem spent_amount_spec :
    ∀ (txs : List Transaction) (user_id : Nat) (category : String)
      (start_date end_date : Date),
      calculate_spent_amount (Except.ok txs) user_id category start_date end_date =
        ((spentFilter txs user_id category start_date end_date).map
          fun t => |t.amount|).sum ∧
      0 ≤ calculate_spent_amount (Except.ok txs) user_id category start_date end_date ∧
      ((∀ t ∈ txs, 0 < t.amount) →
        calculate_spent_amount (Except.ok txs) user_id category start_date end_date = 0) := by
  intro txs user_id category start_date end_date
  refine ⟨rfl, ?_, ?_⟩
  · apply List.sum_nonneg
    intro x hx
    obtain ⟨t, _, rfl⟩ := List.mem_map.mp hx
    exact abs_nonneg _
  · intro hpos
    have hnil : spentFilter txs user_id category start_date end_date = [] := by
      apply List.filter_eq_nil_iff.mpr
      intro t ht
      simp only [Bool.and_eq_true, decide_eq_true_eq]
      rintro ⟨⟨⟨-, hneg⟩, -⟩, -⟩
      exact absurd hneg (not_lt.mpr (hpos t ht).le)
    simp [calculate_spent_amount, hnil]

/-- Witness for C9: the aggregator theorem at a one-element income-only
transaction set. -/
theorem spent_amount_spec_witness :
    calculate_spent_amount
      (Except.ok [{ id := 1, user_id := 1, category := "Food", amount := 5,
                    date := ⟨2024, 1, 10⟩ }])
      1 "Food" ⟨2024, 1, 1⟩ ⟨2024, 1, 31⟩ = 0 :=
  (spent_amount_spec _ 1 "Food" ⟨2024, 1, 1⟩ ⟨2024, 1, 31⟩).2.2
    (by
      intro t ht
      rw [List.mem_singleton] at ht
      subst ht
      norm_num)

/-- C10: a failing transaction query is swallowed by the aggregator, which
returns 0 — indistinguishable from zero spending — and the status computed
from that value (here against a budget of 100 with threshold 80) reports
healthy. -/
theorem spent_amount_error_masked :
    ∀ (msg : String) (user_id : Nat) (category : String)
      (start_date end_date : Date),
      calculate_spent_amount (Except.error msg) user_id category start_date end_date = 0 ∧
      get_budget_status
        (calculate_spent_amount (Except.error msg) user_id category start_date end_date)
        100 80 = "healthy" := by
  intro msg user_id category start_date end_date
  refine ⟨rfl, ?_⟩
  norm_num [calculate_spent_amount, get_budget_status]

/-- C3: the failing input. A monthly budget with start date 2024-01-31
hits `current_start.replace(month=2)`, which raises `ValueError` because
February has no day 31; the rollover does not produce a valid February
date. -/
theorem rollover_jan31_value_error :
    rolloverNewStart "monthly" ⟨2024, 1, 31⟩ = RolloverStep.fail ∧
    mkDate? 2024 2 31 = none := by decide

/-- A batch in which no budget's date computation raises rolls over to
exactly the committed session state `rolloverOutcomeOf`. -/
theorem rolloverLoop_ok (user_id : Nat) (period : String) :
    ∀ budgets : List Budget,
      (∀ b ∈ budgets, rolloverNewStart period b.start_date ≠ RolloverStep.fail) →
      rolloverLoop user_id period budgets =
        Except.ok (rolloverOutcomeOf user_id period budgets) := by
  intro budgets
  induction budgets with
  | nil => intro _; rfl
  | cons b rest ih =>
    intro h
    have hrest := ih fun x hx => h x (List.mem_cons_of_mem _ hx)
    have hb := h b (List.mem_cons_self _ _)
    rw [rolloverLoop]
    cases hstep : rolloverNewStart period b.start_date with
    | fail => exact absurd hstep hb
    | skip =>
      rw [hrest]
      simp [rolloverOutcomeOf, hstep, RolloverStep.isNext]
    | next ns =>
      rw [hrest]
      simp [rolloverOutcomeOf, hstep, RolloverStep.isNext]

/-- A batch containing any budget whose date computation raises aborts
with the `ValueError` error (all per-item changes rolled back). -/
theorem rolloverLoop_error (user_id : Nat) (period : String) :
    ∀ budgets : List Budget,
      (∃ b ∈ budgets, rolloverNewStart period b.start_date = RolloverStep.fail) →
      rolloverLoop user_id period budgets =
        Except.error "ValueError: day is out of range for month" := by
  intro budgets
  induction budgets with
  | nil => rintro ⟨b, hb, -⟩; exact absurd hb (List.not_mem_nil b)
  | cons b rest ih =>
    rintro ⟨x, hx, hfail⟩
    rw [rolloverLoop]
    rcases List.mem_cons.mp hx with rfl | hxr
    · rw [hfail]
    · cases hstep : rolloverNewStart period b.start_date with
      | fail => rfl
      | skip => rw [ih ⟨x, hxr, hfail⟩]
      | next ns => rw [ih ⟨x, hxr, hfail⟩]

/-- C1 counterexample: a batch of two monthly budgets in which the second
(start date 2024-01-31) raises `ValueError` during the date computation.
The claim says the failure is caught per-item and the batch continues,
reporting the count of successes; instead the whole request aborts with an
error and the first budget's already-performed rollover is rolled back —
no partial state and no success count survive. -/
theorem rollover_batch_aborts_on_failure :
    rollover_budgets 7 "monthly" [budgetJan15, budgetJan31] =
      Except.error "ValueError: day is out of range for month" ∧
    rolloverNewStart "monthly" budgetJan15.start_date =
      RolloverStep.next ⟨2024, 2, 15⟩ := by
  constructor <;> rfl

/-- C1 (amended): the batch is all-or-nothing, not partial-failure. When
no budget's date computation raises, the whole batch commits and the
response reports the count of rolled-over budgets; when any single
budget's computation raises (e.g. an invalid next-period start date), the
entire batch aborts with an error, all changes are rolled back, and no
success count is reported. Only the unknown-period `else: continue` branch
skips an item while continuing. -/
theorem rollover_batch_all_or_nothing :
    ∀ (user_id : Nat) (period : String) (budgets : List Budget),
      ((∀ b ∈ budgets, rolloverNewStart period b.start_date ≠ RolloverStep.fail) →
        rollover_budgets user_id period budgets =
          Except.ok (rolloverOutcomeOf user_id period budgets)) ∧
      ((∃ b ∈ budgets, rolloverNewStart period b.start_date = RolloverStep.fail) →
        rollover_budgets user_id period budgets =
          Except.error "ValueError: day is out of range for month") := by
  intro user_id period budgets
  exact ⟨rolloverLoop_ok user_id period budgets,
    rolloverLoop_error user_id period budgets⟩

/-- Witness for C1 (amended): a one-budget batch that rolls over cleanly,
reporting one success, and the same batch extended with the Jan-31 budget,
which aborts as a whole. -/
theorem rollover_batch_all_or_nothing_witness :
    rollover_budgets 7 "monthly" [budgetJan15] =
      Except.ok (rolloverOutcomeOf 7 "monthly" [budgetJan15]) ∧
    rollover_budgets 7 "monthly" [budgetJan31] =
      Except.error "ValueError: day is out of range for month" :=
  ⟨(rollover_batch_all_or_nothing 7 "monthly" [budgetJan15]).1
      (by intro b hb; rw [List.mem_singleton] at hb; subst hb; decide),
   (rollover_batch_all_or_nothing 7 "monthly" [budgetJan31]).2
      ⟨budgetJan31, List.mem_singleton.mpr rfl, by decide⟩⟩

/-- C4 counterexample: an explicit `PUT` update carrying
`{"is_active": true}` reactivates a deactivated budget, so the inactive
state is not terminal. -/
theorem inactive_budget_reactivated_by_update :
    inactiveBudget.is_active = false ∧
    (update_budget inactiveBudget { is_active := some true }).is_active = true :=
  ⟨rfl, rfl⟩

/-- C4 (amended): rollover never returns a pre-existing budget from
inactive to active (it only deactivates or leaves budgets untouched), and
deletion removes the row; but `update_budget` overwrites `is_active` with
whatever the request supplies, so an explicit update can reactivate an
inactive budget — inactivity is terminal only with respect to rollover and
delete, not update. -/
theorem inactive_terminal_except_update :
    (∀ (b : Budget) (u : BudgetUpdate),
      (update_budget b u).is_active = u.is_active.getD b.is_active) ∧
    (∀ (user_id : Nat) (period : String) (budgets : List Budget)
        (o : RolloverOutcome),
      rollover_budgets user_id period budgets = Except.ok o →
      ∀ b' ∈ o.olds, b'.is_active = true →
        ∃ b ∈ budgets, b.is_active = true ∧ b' = b) := by
  constructor
  · intro b u
    rfl
  · intro user_id period budgets o hok b' hb' hact
    simp only [rollover_budgets] at hok
    by_cases hfail :
        ∃ b ∈ budgets, rolloverNewStart period b.start_date = RolloverStep.fail
    · rw [rolloverLoop_error user_id period budgets hfail] at hok
      exact absurd hok (by simp)
    · push_neg at hfail
      rw [rolloverLoop_ok user_id period budgets hfail] at hok
      obtain rfl : rolloverOutcomeOf user_id period budgets = o :=
        Except.ok.inj hok
      simp only [rolloverOutcomeOf, List.mem_map] at hb'
      obtain ⟨b, hb, rfl⟩ := hb'
      by_cases hnext : (rolloverNewStart period b.start_date).isNext
      · rw [if_pos hnext] at hact
        exact absurd hact (by simp)
      · rw [if_neg hnext] at hact ⊢
        exact ⟨b, hb, hact, rfl⟩

/-- Witness for C4 (amended): the theorem applied to a concrete update
request and a concrete successful one-budget rollover. -/
theorem inactive_terminal_except_update_witness :
    (update_budget inactiveBudget { is_active := some true }).is_active =
      (some true).getD inactiveBudget.is_active ∧
    ∃ b ∈ [budgetJan15], b.is_active = true ∧ budgetJan15 = b := by
  constructor
  · exact inactive_terminal_except_update.1 inactiveBudget { is_active := some true }
  · exact inactive_terminal_except_update.2 7 "quarterly" [budgetJan15]
      (rolloverOutcomeOf 7 "quarterly" [budgetJan15]) rfl budgetJan15
      (List.mem_singleton.mpr rfl) rfl

/-- C5: with the primary provider unavailable (missing API key, timeout,
transport/non-2xx error, or malformed JSON) and the fallback provider
failing likewise, resolution falls through to the all-time historical
cache lookup without surfacing any error; when that too is exhausted (no
row ever cached for the pair) the safe default 1.0 is returned. -/
theorem resolver_safe_default :
    ∀ (env : RateEnv) (cache : List ExchangeRate) (f t : String),
      f ≠ t →
      (env.api_key = none ∨ (env.primary f t).failed = true) →
      (env.fallback f).failed = true →
      get_cached_rate env cache f t = (none, cache) →
      get_exchange_rate env cache f t = (get_historical_rate cache f t, cache) ∧
      (pairRows cache f t = [] → get_exchange_rate env cache f t = (1, cache)) := by
  intro env cache f t hft hp hfb hc
  have hapi : fetch_from_api env f t = none := by
    rcases hp with hk | hfail
    · simp [fetch_from_api, hk]
    · cases hkey : env.api_key with
      | none => simp [fetch_from_api, hkey]
      | some k =>
        simp only [fetch_from_api, hkey]
        cases houtcome : env.primary f t with
        | ok p =>
          rw [houtcome] at hfail
          exact absurd hfail (by simp [ApiOutcome.failed])
        | timeout => rfl
        | httpError => rfl
        | badJson => rfl
  have hfallback : fetch_fallback env cache f t = get_historical_rate cache f t := by
    simp only [fetch_fallback]
    cases houtcome : env.fallback f with
    | ok p =>
      rw [houtcome] at hfb
      exact absurd hfb (by simp [ApiOutcome.failed])
    | timeout => rfl
    | httpError => rfl
    | badJson => rfl
  have hmain : get_exchange_rate env cache f t = (fetch_fallback env cache f t, cache) := by
    simp only [get_exchange_rate, if_neg hft, hc]
    simp [truthyRate, hapi]
  refine ⟨by rw [hmain, hfallback], ?_⟩
  intro hpair
  rw [hmain, hfallback]
  simp [get_historical_rate, hpair, mostRecent]

/-- Witness for C5: both providers fail and the cache is empty; the
resolver returns the default rate 1.0 with no error. -/
theorem resolver_safe_default_witness :
    get_exchange_rate envAllFail [] "EUR" "GBP" = (1, []) :=
  (resolver_safe_default envAllFail [] "EUR" "GBP" (by decide)
      (Or.inl rfl) rfl rfl).2 rfl

/-- C2 counterexample: with an empty cache and no API key, the fallback
provider of `envNoKey` successfully supplies the EUR→GBP rate 2, and the
resolver returns it — but the resulting cache is still empty: the
fallback-API success (ladder step 7) writes no `ExchangeRate` row, contrary
to the claim that every successful resolution at steps 4-7 caches. -/
theorem fallback_rate_not_cached :
    get_exchange_rate envNoKey [] "EUR" "GBP" = (2, []) := rfl

/-- C2 (amended): successful resolutions at ladder steps 4-6 write a new
cache row — reverse inference caches the reciprocal as `calculated`,
bridge inference caches the product as `calculated_bridge`, and a primary
API success is cached as `api` — while a rate obtained from the key-less
fallback API is returned with the cache unchanged. `cache_rate` always
appends a row for the pair with the given rate and source. -/
theorem resolution_cache_writes :
    ∀ (env : RateEnv) (cache : List ExchangeRate) (f t : String),
      (∀ r : ExchangeRate,
        freshLookup env cache f t = none →
        staleLookup env cache f t = none →
        reverseLookup env cache f t = some r →
        r.rate ≠ 0 →
        get_cached_rate env cache f t =
          (some (1 / r.rate), cache_rate env cache f t (1 / r.rate) "calculated")) ∧
      (∀ a b : ExchangeRate,
        freshLookup env cache f t = none →
        staleLookup env cache f t = none →
        reverseLookup env cache f t = none →
        f ≠ "USD" → t ≠ "USD" →
        bridgeFromLookup env cache f = some a →
        bridgeToLookup env cache t = some b →
        get_cached_rate env cache f t =
          (some (a.rate * b.rate),
            cache_rate env cache f t (a.rate * b.rate) "calculated_bridge")) ∧
      (∀ v : ℚ,
        f ≠ t →
        get_cached_rate env cache f t = (none, cache) →
        fetch_from_api env f t = some v →
        v ≠ 0 →
        get_exchange_rate env cache f t = (v, cache_rate env cache f t v "api")) ∧
      (f ≠ t →
        get_cached_rate env cache f t = (none, cache) →
        fetch_from_api env f t = none →
        get_exchange_rate env cache f t = (fetch_fallback env cache f t, cache)) ∧
      (∀ (rate : ℚ) (src : String),
        ∃ row ∈ cache_rate env cache f t rate src,
          row.from_currency = f ∧ row.to_currency = t ∧
          row.rate = rate ∧ row.source = src ∧ row.created_at = env.now) := by
  intro env cache f t
  refine ⟨?_, ?_, ?_, ?_, ?_⟩
  · intro r h1 h2 h3 h4
    simp only [get_cached_rate, h1, h2, h3]
    rw [if_pos h4]
  · intro a b h1 h2 h3 hf ht ha hb
    simp only [get_cached_rate, h1, h2, h3, bridgeStep]
    rw [if_pos ⟨hf, ht⟩, ha, hb]
  · intro v hft hc hv hvz
    simp only [get_exchange_rate, if_neg hft, hc]
    simp [truthyRate, hv, hvz]
  · intro hft hc hv
    simp only [get_exchange_rate, if_neg hft, hc]
    simp [truthyRate, hv]
  · intro rate src
    refine ⟨newCacheRow env cache f t rate src, ?_, rfl, rfl, rfl, rfl, rfl⟩
    simp [cache_rate]

/-- Witness for C2 (amended): the reverse-inference tier over a one-row
reverse cache writes the computed reciprocal through `cache_rate`, and the
fallback tier of `envNoKey` leaves the empty cache unchanged. -/
theorem resolution_cache_writes_witness :
    get_cached_rate envNoKey [revRowGBPEUR] "EUR" "GBP" =
      (some (1 / revRowGBPEUR.rate),
        cache_rate envNoKey [revRowGBPEUR] "EUR" "GBP"
          (1 / revRowGBPEUR.rate) "calculated") ∧
    get_exchange_rate envNoKey [] "EUR" "GBP" =
      (fetch_fallback envNoKey [] "EUR" "GBP", []) := by
  constructor
  · exact (resolution_cache_writes envNoKey [revRowGBPEUR] "EUR" "GBP").1
      revRowGBPEUR rfl rfl rfl (by norm_num [revRowGBPEUR])
  · exact (resolution_cache_writes envNoKey [] "EUR" "GBP").2.2.2.1
      (by decide) rfl rfl

/-- Sorting by `created_at` leaves an already-ascending list unchanged. -/
theorem sortByCreated_sorted_fix :
    ∀ l : List ExchangeRate,
      List.Pairwise (fun a b => a.created_at ≤ b.created_at) l →
      sortByCreated l = l := by
  intro l
  induction l with
  | nil => intro _; rfl
  | cons x xs ih =>
    intro h
    rw [sortByCreated, ih (List.Pairwise.of_cons h)]
    cases xs with
    | nil => rfl
    | cons y ys =>
      have hxy : x.created_at ≤ y.created_at :=
        (List.pairwise_cons.mp h).1 y (List.mem_cons_self _ _)
      rw [insertByCreated, if_pos hxy]

/-- Deleting, from a list of rows with pairwise-distinct ids, exactly the
rows whose id occurs among the first `k` leaves the remaining suffix. -/
theorem filter_take_ids :
    ∀ (l : List ExchangeRate) (k : Nat),
      (l.map fun r => r.id).Nodup →
      l.filter (fun r => !((l.take k).any fun o => o.id = r.id)) = l.drop k := by
  intro l
  induction l with
  | nil => intro k _; simp
  | cons r rs ih =>
    intro k h
    rw [List.map_cons, List.nodup_cons] at h
    obtain ⟨hrid, htail⟩ := h
    cases k with
    | zero =>
      simp only [List.take_zero, List.any_nil, Bool.not_false, List.drop_zero]
      exact List.filter_eq_self.mpr fun a _ => rfl
    | succ k =>
      simp only [List.take_succ_cons, List.drop_succ_cons]
      have hpr : (!((r :: List.take k rs).any fun o => o.id = r.id)) = false := by
        simp
      rw [List.filter_cons, hpr]
      simp only [Bool.false_eq_true, if_false]
      rw [List.filter_congr (q := fun x => !((rs.take k).any fun o => o.id = x.id))
        (fun x hx => ?_)]
      · exact ih k htail
      · have hne : r.id ≠ x.id := by
          intro heq
          exact hrid (heq ▸ List.mem_map_of_mem (fun r' => r'.id) hx)
        simp [List.any_cons, hne]

/-- `pairRows` distributes over append. -/
theorem pairRows_append (l1 l2 : List ExchangeRate) (f t : String) :
    pairRows (l1 ++ l2) f t = pairRows l1 f t ++ pairRows l2 f t := by
  simp [pairRows, List.filter_append]

/-- `pairRows` commutes with any row filter. -/
theorem pairRows_filter (cache : List ExchangeRate) (p : ExchangeRate → Bool)
    (f t : String) :
    pairRows (cache.filter p) f t = (pairRows cache f t).filter p := by
  simp only [pairRows, List.filter_filter]
  exact List.filter_congr fun x _ => by rw [Bool.and_comm]

/-- The new row written by `cache_rate` belongs to the pair. -/
theorem pairRows_newCacheRow (env : RateEnv) (cache : List ExchangeRate)
    (f t : String) (rate : ℚ) (src : String) :
    pairRows [newCacheRow env cache f t rate src] f t =
      [newCacheRow env cache f t rate src] := by
  simp [pairRows, newCacheRow]

/-- C8: caching a new rate for a pair that already has 20 or more stored
rows (listed here in ascending `created_at` order, with distinct row ids)
leaves exactly 20 rows for the pair: the 19 most recent old rows followed
by the newly inserted one — the oldest rows are deleted on overflow, then
the new row is appended. -/
theorem cache_retention_cap :
    ∀ (env : RateEnv) (cache : List ExchangeRate) (f t : String)
      (rate : ℚ) (src : String),
      20 ≤ (pairRows cache f t).length →
      List.Pairwise (fun a b => a.created_at ≤ b.created_at) (pairRows cache f t) →
      (cache.map fun r => r.id).Nodup →
      pairRows (cache_rate env cache f t rate src) f t =
        (pairRows cache f t).drop ((pairRows cache f t).length - 19) ++
          [newCacheRow env cache f t rate src] ∧
      (pairRows (cache_rate env cache f t rate src) f t).length = 20 := by
  intro env cache f t rate src h20 hsorted hids
  have hnodup_pr : ((pairRows cache f t).map fun r => r.id).Nodup :=
    List.Nodup.sublist ((List.filter_sublist _).map _) hids
  have hmain : cache_rate env cache f t rate src =
      cache.filter (fun r =>
        !(((pairRows cache f t).take ((pairRows cache f t).length - 19)).any
          fun o => o.id = r.id)) ++ [newCacheRow env cache f t rate src] := by
    simp only [cache_rate]
    rw [if_pos h20, sortByCreated_sorted_fix _ hsorted]
  have hrows : pairRows (cache_rate env cache f t rate src) f t =
      (pairRows cache f t).drop ((pairRows cache f t).length - 19) ++
        [newCacheRow env cache f t rate src] := by
    rw [hmain, pairRows_append, pairRows_filter, pairRows_newCacheRow,
      filter_take_ids _ _ hnodup_pr]
  refine ⟨hrows, ?_⟩
  rw [hrows, List.length_append, List.length_drop, List.length_singleton]
  omega

/-- Witness for C8: the retention theorem at a concrete 20-row cache for
the (EUR, GBP) pair: after the write, exactly 20 rows remain (the 19 most
recent old ones plus the new one). -/
theorem cache_retention_cap_witness :
    20 ≤ (pairRows cache20 "EUR" "GBP").length ∧
    (pairRows (cache_rate envNoKey cache20 "EUR" "GBP" 2 "api") "EUR" "GBP").length
      = 20 :=
  ⟨by decide,
   (cache_retention_cap envNoKey cache20 "EUR" "GBP" 2 "api"
      (by decide) (by decide) (by decide)).2⟩
